import Mathlib

/-!
Verification development for the libdebugger instrumentation engine.

This file gives a shallow embedding of the core of the repository:

* `src/libdebugger/bytecode.py` — interpreter-version dispatch, the
  target-variant code generators (`generate_code_call_self_method`,
  `redirector_code`), and the entry-point injector
  (`Injector.inject` / `EntrypointInjector.insert_now` /
  `Injector._copy_metadata`);
* `src/libdebugger/instrumentation.py` — the `InstrumentationDecorator`
  redirection runtime (`__init__`, `cleanup`, `__call__`,
  `_capture_caller_frame_and_run_entry_probes`, `_push_frame`,
  `_pop_frame`, `_peek_frame`);
* `src/libdebugger/manager.py` — `LiveDebuggerManager._update_breakpoints`
  and `get_bid_by_filepos`;
* `src/libdebugger/breakpoint.py` — `Breakpoint.condition_matches`.

Machine-level conventions of CPython that the source relies on are made
explicit: value stacks are Lean lists with the head as top-of-stack, the
Python frame-stack list (append / pop / [-1]) is a Lean list with the head
as the Python tail, and Python truthiness of `Optional[str]` is modelled
by `condTruthy` (None and the empty string are falsy).
-/

namespace LibDebugger

/-! ## Interpreter version dispatch (`src/libdebugger/bytecode.py`, `_is_version` / `is_py39` .. `is_py313`) -/

/-- A Python interpreter version as (major, minor), mirroring
`sys.version_info.major/minor` as used by `_is_version`. -/
abbrev PyVer := Nat × Nat

def isVersion (vi ver : PyVer) : Bool := vi.1 == ver.1 && vi.2 == ver.2

def is_py39 (vi : PyVer) : Bool := isVersion vi (3, 9)

def is_py310 (vi : PyVer) : Bool := isVersion vi (3, 10)

def is_py311 (vi : PyVer) : Bool := isVersion vi (3, 11)

def is_py312 (vi : PyVer) : Bool := isVersion vi (3, 12)

def is_py313 (vi : PyVer) : Bool := isVersion vi (3, 13)

/-- The versions for which any of the code generators emits code. -/
def SupportedVer (vi : PyVer) : Bool :=
  is_py39 vi || is_py310 vi || is_py311 vi || is_py312 vi || is_py313 vi

theorem isVersion_eq (vi ver : PyVer) : isVersion vi ver = true ↔ vi = ver := by
  cases vi; cases ver
  simp [isVersion, Prod.ext_iff]

theorem supported_cases {vi : PyVer} (h : SupportedVer vi = true) :
    vi = (3, 9) ∨ vi = (3, 10) ∨ vi = (3, 11) ∨ vi = (3, 12) ∨ vi = (3, 13) := by
  simp only [SupportedVer, Bool.or_eq_true, is_py39, is_py310, is_py311, is_py312,
    is_py313, isVersion_eq] at h
  tauto

/-! ## Instruction model (the subset of the `bytecode` library the source uses) -/

/-- Argument of an instruction: no argument, a numeric oparg, a name
(`LOAD_FAST` / `LOAD_METHOD`), the decorator object pushed by
`LOAD_CONST` (the only constant the generated code ever loads), or the
`(bool, name)` pair taken by `LOAD_ATTR` on 3.12+. -/
inductive IArg where
  | noArg
  | num (n : Nat)
  | str (s : String)
  | constDeco
  | attrPair (b : Bool) (s : String)
deriving DecidableEq, Repr

/-- One element of a `bytecode.Bytecode` sequence: a concrete instruction
or one of the pseudo-elements (`Label`, `TryBegin`, `TryEnd`,
`SetLineno`). `EntrypointInjector.insert_now` distinguishes real
instructions by `isinstance(prev_instr, Instr)`. -/
inductive BInstr where
  | instr (nm : String) (arg : IArg)
  | label (l : Nat)
  | tryBegin (l : Nat)
  | tryEnd (l : Nat)
  | setLineno (n : Nat)
deriving DecidableEq, Repr

/-- The `.name` of a sequence element when it is an `Instr`, `none` for
pseudo-elements. -/
def instrName? : BInstr → Option String
  | BInstr.instr nm _ => some nm
  | _ => none

/-! ## Target-variant code generators (`bytecode.py`) -/

/-- `generate_code_call_self_method(obj, method_name)`: the instruction
sequence its `_codegen` closure emits, per interpreter variant; an
unrecognized variant raises `RuntimeError`. -/
def codegenCallSelfMethod (vi : PyVer) (methodName : String) : Except String (List BInstr) :=
  if is_py39 vi || is_py310 vi then
    Except.ok
      [BInstr.instr "LOAD_CONST" IArg.constDeco,
       BInstr.instr "LOAD_METHOD" (IArg.str methodName),
       BInstr.instr "CALL_FUNCTION" (IArg.num 0),
       BInstr.instr "POP_TOP" IArg.noArg]
  else if is_py311 vi then
    Except.ok
      [BInstr.instr "LOAD_CONST" IArg.constDeco,
       BInstr.instr "LOAD_METHOD" (IArg.str methodName),
       BInstr.instr "PRECALL" (IArg.num 0),
       BInstr.instr "CALL" (IArg.num 0),
       BInstr.instr "POP_TOP" IArg.noArg]
  else if is_py312 vi || is_py313 vi then
    Except.ok
      [BInstr.instr "LOAD_CONST" IArg.constDeco,
       BInstr.instr "LOAD_ATTR" (IArg.attrPair true methodName),
       BInstr.instr "CALL" (IArg.num 0),
       BInstr.instr "POP_TOP" IArg.noArg]
  else
    Except.error "We don't support this version of python"

/-- `redirector_code(who_to_call)`: the trampoline instruction sequence,
per interpreter variant; an unrecognized variant raises `RuntimeError`. -/
def redirectorInstrs (vi : PyVer) : Except String (List BInstr) :=
  if is_py39 vi || is_py310 vi then
    Except.ok
      [BInstr.instr "LOAD_CONST" IArg.constDeco,
       BInstr.instr "LOAD_FAST" (IArg.str "args"),
       BInstr.instr "BUILD_MAP" (IArg.num 0),
       BInstr.instr "LOAD_FAST" (IArg.str "kwargs"),
       BInstr.instr "DICT_MERGE" (IArg.num 1),
       BInstr.instr "CALL_FUNCTION_EX" (IArg.num 1),
       BInstr.instr "RETURN_VALUE" IArg.noArg]
  else if is_py311 vi || is_py312 vi then
    Except.ok
      [BInstr.instr "RESUME" (IArg.num 0),
       BInstr.instr "PUSH_NULL" IArg.noArg,
       BInstr.instr "LOAD_CONST" IArg.constDeco,
       BInstr.instr "LOAD_FAST" (IArg.str "args"),
       BInstr.instr "BUILD_MAP" (IArg.num 0),
       BInstr.instr "LOAD_FAST" (IArg.str "kwargs"),
       BInstr.instr "DICT_MERGE" (IArg.num 1),
       BInstr.instr "CALL_FUNCTION_EX" (IArg.num 1),
       BInstr.instr "RETURN_VALUE" IArg.noArg]
  else if is_py313 vi then
    Except.ok
      [BInstr.instr "RESUME" (IArg.num 0),
       BInstr.instr "LOAD_CONST" IArg.constDeco,
       BInstr.instr "PUSH_NULL" IArg.noArg,
       BInstr.instr "LOAD_FAST" (IArg.str "args"),
       BInstr.instr "BUILD_MAP" (IArg.num 0),
       BInstr.instr "LOAD_FAST" (IArg.str "kwargs"),
       BInstr.instr "DICT_MERGE" (IArg.num 1),
       BInstr.instr "CALL_FUNCTION_EX" (IArg.num 1),
       BInstr.instr "RETURN_VALUE" IArg.noArg]
  else
    Except.error "Not compatible with this python version"

/-! ## Executable-unit metadata (`bytecode.Bytecode` as used by the source) -/

/-- A `bytecode.Bytecode` object: the instruction sequence plus the
metadata fields the source reads or writes. -/
structure Bytecode where
  instrs : List BInstr
  argnames : List String
  cellvars : List String
  freevars : List String
  argcount : Nat
  posonlyargcount : Nat
  kwonlyargcount : Nat
  filename : String
  docstring : Option String
  flags : Nat
  first_lineno : Nat
  name : String
deriving DecidableEq, Repr

/-- `bytecode.Bytecode(instrs)`: a fresh object carrying the given
instructions and the library's default metadata. -/
def Bytecode.blank (instrs : List BInstr) : Bytecode :=
  { instrs := instrs
    argnames := []
    cellvars := []
    freevars := []
    argcount := 0
    posonlyargcount := 0
    kwonlyargcount := 0
    filename := "<string>"
    docstring := none
    flags := 0
    first_lineno := 1
    name := "<module>" }

/-- `CompilerFlags.OPTIMIZED`. -/
def FLAG_OPTIMIZED : Nat := 1

/-- `CompilerFlags.NEWLOCALS`. -/
def FLAG_NEWLOCALS : Nat := 2

/-- `CompilerFlags.VARARGS`. -/
def FLAG_VARARGS : Nat := 4

/-- `CompilerFlags.VARKEYWORDS`. -/
def FLAG_VARKEYWORDS : Nat := 8

/-- `redirector_code`: the full `Bytecode` it returns — the variant
instruction sequence plus the trampoline's fixed arity metadata and
flags. -/
def redirectorBytecode (vi : PyVer) : Except String Bytecode :=
  match redirectorInstrs vi with
  | Except.error e => Except.error e
  | Except.ok instrs =>
    Except.ok
      { Bytecode.blank instrs with
        argcount := 0
        posonlyargcount := 0
        kwonlyargcount := 0
        argnames := ["args", "kwargs"]
        flags := FLAG_OPTIMIZED ||| FLAG_NEWLOCALS ||| FLAG_VARARGS ||| FLAG_VARKEYWORDS }

/-! ## The entry-point injector (`Injector` / `EntrypointInjector`) -/

/-- `inspect.CO_GENERATOR` is bit 5 (0x20) of `co_flags`;
`Injector.is_generator` tests it. -/
def isGeneratorFlags (flags : Nat) : Bool := flags.testBit 5

/-- `EntrypointInjector.insert_now(prev_instr, instr)` together with its
`self.injected` latch.  The result is whether to insert here; the caller
ors it into the latch (the source sets `self.injected = True` exactly on
the `True` returns).  The final `else` raises `RuntimeError`. -/
def insertNow (vi : PyVer) (isGen : Bool) (injected : Bool) (prev : Option BInstr) :
    Except String Bool :=
  if injected then Except.ok false
  else if is_py310 vi then
    (if isGen then
      (match prev with
       | some p => if instrName? p = some "GEN_START" then Except.ok true else Except.ok false
       | none => Except.ok false)
     else
      (match prev with
       | none => Except.ok true
       | some _ => Except.ok false))
  else if is_py39 vi && prev.isNone then Except.ok true
  else if is_py311 vi || is_py312 vi || is_py313 vi then
    (match prev with
     | some p => if instrName? p = some "RESUME" then Except.ok true else Except.ok false
     | none => Except.ok false)
  else Except.error "We don't support this version of python"

/-- The instruction walk of `Injector.inject`: for each instruction, ask
`insert_now(prev_instr, instr)`; on `True` splice in the generated
sequence before the instruction, then append the instruction and advance
`prev_instr`. -/
def injectLoop (vi : PyVer) (isGen : Bool) (gen : List BInstr) :
    List BInstr → Bool → Option BInstr → Except String (List BInstr)
  | [], _, _ => Except.ok []
  | i :: rest, injected, prev =>
    match insertNow vi isGen injected prev with
    | Except.error e => Except.error e
    | Except.ok doIns =>
      match injectLoop vi isGen gen rest (injected || doIns) (some i) with
      | Except.error e => Except.error e
      | Except.ok tail => Except.ok ((if doIns then gen ++ [i] else [i]) ++ tail)

/-- `Injector._copy_metadata(old, new)` over
`_get_metadata_attributes_to_copy()`: argnames, cellvars, freevars,
argcount, filename, docstring, posonlyargcount, kwonlyargcount, flags,
filename (listed twice in the source), first_lineno, name. -/
def copyMetadata (old new : Bytecode) : Bytecode :=
  { new with
    argnames := old.argnames
    cellvars := old.cellvars
    freevars := old.freevars
    argcount := old.argcount
    filename := old.filename
    docstring := old.docstring
    posonlyargcount := old.posonlyargcount
    kwonlyargcount := old.kwonlyargcount
    flags := old.flags
    first_lineno := old.first_lineno
    name := old.name }

/-- `Injector.inject(code)` with an `EntrypointInjector`: decode, walk
once inserting via `insert_now`, build a fresh `Bytecode` from the new
instructions, and copy the metadata from the input. -/
def inject (vi : PyVer) (gen : List BInstr) (code : Bytecode) : Except String Bytecode :=
  match injectLoop vi (isGeneratorFlags code.flags) gen code.instrs false none with
  | Except.error e => Except.error e
  | Except.ok newInstrs => Except.ok (copyMetadata code (Bytecode.blank newInstrs))

/-- The metadata fields of an executable unit, i.e. everything except the
instruction sequence. -/
structure BMeta where
  argnames : List String
  cellvars : List String
  freevars : List String
  argcount : Nat
  posonlyargcount : Nat
  kwonlyargcount : Nat
  filename : String
  docstring : Option String
  flags : Nat
  first_lineno : Nat
  name : String
deriving DecidableEq, Repr

def metaOf (b : Bytecode) : BMeta :=
  { argnames := b.argnames
    cellvars := b.cellvars
    freevars := b.freevars
    argcount := b.argcount
    posonlyargcount := b.posonlyargcount
    kwonlyargcount := b.kwonlyargcount
    filename := b.filename
    docstring := b.docstring
    flags := b.flags
    first_lineno := b.first_lineno
    name := b.name }

/-! ## Installation and cleanup (`InstrumentationDecorator.__init__` / `cleanup`) -/

/-- `InstrumentationDecorator._generate_redirector_code`: take
`redirector_code(self)` and overwrite name, filename, first_lineno,
freevars and cellvars with the original function's. -/
def generateRedirectorCode (vi : PyVer) (originalCode : Bytecode) : Except String Bytecode :=
  match redirectorBytecode vi with
  | Except.error e => Except.error e
  | Except.ok rc =>
    Except.ok
      { rc with
        name := originalCode.name
        filename := originalCode.filename
        first_lineno := originalCode.first_lineno
        freevars := originalCode.freevars
        cellvars := originalCode.cellvars }

/-- The state `InstrumentationDecorator.__init__` leaves behind:
`original_code` is the snapshot of `fn.__code__` taken before any
modification, `instrumented_code` the entry-injected body,
`redirector_code` the trampoline, and `wrapped_fn_code` the code object
currently installed on the original function (the trampoline after
install). -/
structure Installation where
  original_code : Bytecode
  instrumented_code : Bytecode
  redirector_code : Bytecode
  wrapped_fn_code : Bytecode
deriving DecidableEq, Repr

/-- `InstrumentationDecorator.__init__(fn, ...)`: snapshot
`fn.__code__`, entry-inject a call to
`_capture_caller_frame_and_run_entry_probes`, build the redirector, and
assign it to `fn.__code__`. -/
def installDecorator (vi : PyVer) (fnCode : Bytecode) : Except String Installation :=
  match codegenCallSelfMethod vi "_capture_caller_frame_and_run_entry_probes" with
  | Except.error e => Except.error e
  | Except.ok _gen =>
    match inject vi _gen fnCode with
    | Except.error e => Except.error e
    | Except.ok instrumented =>
      match generateRedirectorCode vi fnCode with
      | Except.error e => Except.error e
      | Except.ok rc =>
        Except.ok
          { original_code := fnCode
            instrumented_code := instrumented
            redirector_code := rc
            wrapped_fn_code := rc }

/-- `InstrumentationDecorator.cleanup`: assign the snapshot back onto the
wrapped function. -/
def cleanup (inst : Installation) : Installation :=
  { inst with wrapped_fn_code := inst.original_code }

/-- Whether an `Except` is a success. -/
def isOkE {α : Type} : Except String α → Bool
  | Except.ok _ => true
  | Except.error _ => false

/-! ## Trampoline semantics (the redirector instruction sequences) -/

/-- A value on the evaluation stack while the trampoline runs: the
decorator object loaded by `LOAD_CONST`, the `NULL` pushed by
`PUSH_NULL`, the packed positional-argument tuple `args`, the keyword
dict `kwargs`, or the result of the `CALL_FUNCTION_EX` call.  `V` is the
runtime value type, `R` the type of the decorator call's result. -/
inductive MVal (V R : Type) where
  | deco
  | null
  | posArgs (l : List V)
  | kwArgs (m : List (String × V))
  | ret (r : R)
deriving DecidableEq, Repr

/-- `DICT_MERGE` for a call: merge dict `b` into dict `a`, raising on a
duplicate key (in the trampoline `a` is always the empty map built by
`BUILD_MAP 0`). -/
def mergeKw {V : Type} (a b : List (String × V)) : Except String (List (String × V)) :=
  if a.any (fun kv => b.any (fun kv2 => kv.1 == kv2.1)) then
    Except.error "duplicate keyword argument"
  else Except.ok (a ++ b)

/-- `CALL_FUNCTION_EX`'s consumption of the callable (and the `NULL`
convention) per interpreter variant, matching the stack layout the
trampoline pushed: bare callable on 3.9/3.10, `NULL` below the callable
on 3.11/3.12, `NULL` above the callable on 3.13. -/
def popCallable {V R : Type} (vi : PyVer) : List (MVal V R) → Option (List (MVal V R)) :=
  fun s =>
    if is_py39 vi || is_py310 vi then
      match s with
      | MVal.deco :: r => some r
      | _ => none
    else if is_py311 vi || is_py312 vi then
      match s with
      | MVal.deco :: MVal.null :: r => some r
      | _ => none
    else if is_py313 vi then
      match s with
      | MVal.null :: MVal.deco :: r => some r
      | _ => none
    else none

/-- Straight-line execution of the trampoline body.  `call` is the
decorator object's `__call__`; `la` and `lk` are the `args` tuple and
`kwargs` dict bound from the caller's arguments (the trampoline's only
locals, per `redirector_code`'s `argnames`/`VARARGS`/`VARKEYWORDS`). -/
def runInstrs {V R : Type} (vi : PyVer) (call : List V → List (String × V) → R)
    (la : List V) (lk : List (String × V)) :
    List BInstr → List (MVal V R) → Except String (MVal V R)
  | [], _ => Except.error "execution fell off the end without RETURN_VALUE"
  | BInstr.instr nm arg :: rest, stk =>
    if nm = "RESUME" then runInstrs vi call la lk rest stk
    else if nm = "PUSH_NULL" then runInstrs vi call la lk rest (MVal.null :: stk)
    else if nm = "LOAD_CONST" then
      (match arg with
       | IArg.constDeco => runInstrs vi call la lk rest (MVal.deco :: stk)
       | _ => Except.error "unsupported constant")
    else if nm = "LOAD_FAST" then
      (match arg with
       | IArg.str s =>
         if s = "args" then runInstrs vi call la lk rest (MVal.posArgs la :: stk)
         else if s = "kwargs" then runInstrs vi call la lk rest (MVal.kwArgs lk :: stk)
         else Except.error "unknown local variable"
       | _ => Except.error "bad LOAD_FAST argument")
    else if nm = "BUILD_MAP" then
      (match arg with
       | IArg.num 0 => runInstrs vi call la lk rest (MVal.kwArgs [] :: stk)
       | _ => Except.error "unsupported BUILD_MAP size")
    else if nm = "DICT_MERGE" then
      (match stk with
       | MVal.kwArgs b :: MVal.kwArgs a :: s =>
         (match mergeKw a b with
          | Except.ok m => runInstrs vi call la lk rest (MVal.kwArgs m :: s)
          | Except.error e => Except.error e)
       | _ => Except.error "DICT_MERGE expects two dicts")
    else if nm = "CALL_FUNCTION_EX" then
      (match arg with
       | IArg.num 1 =>
         (match stk with
          | MVal.kwArgs m :: MVal.posArgs l :: s =>
            (match popCallable vi s with
             | some s2 => runInstrs vi call la lk rest (MVal.ret (call l m) :: s2)
             | none => Except.error "bad callable stack layout")
          | _ => Except.error "CALL_FUNCTION_EX expects kwargs over args")
       | _ => Except.error "unsupported CALL_FUNCTION_EX flags")
    else if nm = "RETURN_VALUE" then
      (match stk with
       | top :: _ => Except.ok top
       | [] => Except.error "empty stack at RETURN_VALUE")
    else Except.error "unsupported opcode"
  | _ :: _, _ => Except.error "pseudo-instruction in straight-line code"

/-- Run the variant's redirector sequence on an empty stack: what a call
to the instrumented function object executes. -/
def runRedirector {V R : Type} (vi : PyVer) (call : List V → List (String × V) → R)
    (la : List V) (lk : List (String × V)) : Except String (MVal V R) :=
  match redirectorInstrs vi with
  | Except.error e => Except.error e
  | Except.ok instrs => runInstrs vi call la lk instrs []

/-! ## The redirection runtime (`InstrumentationDecorator.__call__` and the probe loops)

Python values are `V`; an exception object is identified by a `Nat`.
A call either returns a value or raises. -/

inductive Res (V : Type) where
  | ok (v : V)
  | exn (e : Nat)
deriving DecidableEq, Repr

/-- The `(retval, exception)` pair `__call__` passes to `execute_probe`
at exit time: `retval` was initialized to `None` and only assigned on
normal return; `exception` is only assigned when the body raised. -/
def splitRes {V : Type} : Res V → Option V × Option Nat
  | Res.ok v => (some v, none)
  | Res.exn e => (none, some e)

/-- Outcome of running one probe (store lookup + `execute_probe` +
`_enqueue_message` when captures were produced): either the whole step
succeeds, or some part of it raises. -/
inductive POutcome where
  | fail
  | ok
deriving DecidableEq, Repr

/-- Observable probe executions, for counting.  `entryRun p f`: entry
probe `p` executed against frame `f`; `exitRun p f rv ex`: exit probe
`p` executed against frame `f` with the given retval/exception pair. -/
inductive Event (V : Type) where
  | entryRun (pid : Nat) (fid : Nat)
  | exitRun (pid : Nat) (fid : Nat) (retval : Option V) (exc : Option Nat)
deriving DecidableEq, Repr

/-- The fixed data of one installed decorator plus the semantics of the
instrumented function it calls:
* `body` — the original function body's pure semantics (the original
  bytecode after the injected entry call);
* `binds` — whether calling the function with these arguments raises
  before the body starts (argument-binding failure), in which case the
  injected entry call never runs;
* `entryProbes` / `exitProbes` — `(probe id, behaviour)` pairs; the
  behaviour maps the captured frame (and at exit the retval/exception
  pair) to the probe-step outcome. -/
structure DecoEnv (V : Type) where
  body : List V → List (String × V) → Res V
  binds : List V → List (String × V) → Option Nat
  entryProbes : List (Nat × (Nat → POutcome))
  exitProbes : List (Nat × (Nat → Option V → Option Nat → POutcome))

/-- Frames are identified by `Nat`.  The Python frame object created for
a call is distinct from (`==`-different, i.e. not identical to) every
frame currently stored on the stack; a strictly larger id models that. -/
def freshF (st : List Nat) : Nat := st.foldr max 0 + 1

/-- The entry-probe `for` loop of
`_capture_caller_frame_and_run_entry_probes`.  All of it runs inside one
`try`: the first raising step aborts the rest of the loop (the exception
is caught at the method's boundary). -/
def runEntryLoop {V : Type} (fid : Nat) : List (Nat × (Nat → POutcome)) → List (Event V)
  | [] => []
  | p :: rest =>
    match p.2 fid with
    | POutcome.fail => []
    | POutcome.ok => Event.entryRun p.1 fid :: runEntryLoop fid rest

/-- The exit-probe `for` loop in `__call__`'s `finally`, likewise inside
a single `try`. -/
def runExitLoop {V : Type} (fid : Nat) (rv : Option V) (ex : Option Nat) :
    List (Nat × (Nat → Option V → Option Nat → POutcome)) → List (Event V)
  | [] => []
  | p :: rest =>
    match p.2 fid rv ex with
    | POutcome.fail => []
    | POutcome.ok => Event.exitRun p.1 fid rv ex :: runExitLoop fid rv ex rest

/-- Exit probes fired against frame `fid` for a body result `r`. -/
def exitTrace {V : Type} (env : DecoEnv V) (fid : Nat) (r : Res V) : List (Event V) :=
  runExitLoop fid (splitRes r).1 (splitRes r).2 env.exitProbes

/-- Result, frame stack and probe log of one step of the runtime.  The
Lean list holds the newest frame at its head (Python appends and pops at
the tail, and peeks `frames[-1]`). -/
structure CallOut (V : Type) where
  res : Res V
  frames : List Nat
  log : List (Event V)
deriving DecidableEq, Repr

/-- `self.instrumented_fn(*args, **kwds)`: if argument binding fails the
call raises before any bytecode of the body runs; otherwise the injected
entry call executes `_capture_caller_frame_and_run_entry_probes` — which
pushes the new frame and runs the entry probes, catching every exception
at its boundary — and then the original body runs. -/
def runInstrumentedFn {V : Type} (env : DecoEnv V) (st : List Nat)
    (la : List V) (lk : List (String × V)) : CallOut V :=
  match env.binds la lk with
  | some e => ⟨Res.exn e, st, []⟩
  | none => ⟨env.body la lk, freshF st :: st, runEntryLoop (freshF st) env.entryProbes⟩

/-- The `finally` block of `__call__`: `_pop_frame()`; if the popped
frame is the frame that was already on top before the call (`==` and not
`None`), push it back and fire nothing; otherwise, if a frame was
popped, run the exit probes against it (exceptions caught); if the stack
was empty, do nothing. -/
def exitPhase {V : Type} (env : DecoEnv V) (previous : Option Nat) (st : List Nat)
    (r : Res V) : List Nat × List (Event V) :=
  match st with
  | [] => ([], [])
  | f :: rest =>
    if some f = previous then (f :: rest, [])
    else (rest, exitTrace env f r)

/-- `InstrumentationDecorator.__call__(*args, **kwds)`: peek the previous
top of the frame stack, run the instrumented function (its result is
returned, or its exception re-raised, unchanged), and in `finally` run
the exit phase. -/
def decoratorCall {V : Type} (env : DecoEnv V) (st : List Nat)
    (la : List V) (lk : List (String × V)) : CallOut V :=
  let previous := st.head?
  let step := runInstrumentedFn env st la lk
  let fin := exitPhase env previous step.frames step.res
  ⟨step.res, fin.1, step.log ++ fin.2⟩

/-- Calling the function before installation: binding failure raises,
otherwise the body runs. -/
def originalCall {V : Type} (env : DecoEnv V) (la : List V) (lk : List (String × V)) : Res V :=
  match env.binds la lk with
  | some e => Res.exn e
  | none => env.body la lk

def isExitEv {V : Type} : Event V → Bool
  | Event.exitRun _ _ _ _ => true
  | _ => false

/-- The exit-probe executions recorded in a log. -/
def exitEvents {V : Type} (log : List (Event V)) : List (Event V) :=
  log.filter isExitEv

/-! ## Breakpoints and reconciliation (`breakpoint.py`, `manager.py`) -/

/-- `Breakpoint`: uuid, filename, lineno, optional condition source. -/
structure Breakpoint where
  uuid : String
  filename : String
  lineno : Nat
  conditional_expr : Option String
deriving DecidableEq, Repr

/-- Python truthiness of an `Optional[str]`: `None` and the empty string
are falsy. -/
def condTruthy : Option String → Bool
  | none => false
  | some s => !decide (s = "")

/-- `Breakpoint.condition_matches(locs)`: `False` when
`self.conditional_expr` is truthy, else `True`; `locs` is never read. -/
def condition_matches (bp : Breakpoint) (_locs : List (String × String)) : Bool :=
  if condTruthy bp.conditional_expr then false else true

/-- The `(bp.uuid, bp.filename, bp.lineno)` tuple
`_update_breakpoints` builds its old/new sets from. -/
def triple (bp : Breakpoint) : String × String × Nat := (bp.uuid, bp.filename, bp.lineno)

/-- All four fields of a breakpoint, for stating what a full-value set
difference would compare. -/
def quad (bp : Breakpoint) : String × String × Nat × Option String :=
  (bp.uuid, bp.filename, bp.lineno, bp.conditional_expr)

/-- The mutable state of `LiveDebuggerManager` that
`_update_breakpoints` and `get_bid_by_filepos` touch. -/
structure MgrState where
  breakpoints : List Breakpoint
  filepos_to_bids : List ((String × Nat) × Nat)
  bid_counter : Nat
deriving DecidableEq, Repr

/-- The externally visible operations `_update_breakpoints` performs, in
order: `reset_breakpoint_registry()`, `reset_function_at_filename_and_line`,
`instrument_function_at_filename_and_line`, `register_breakpoints`. -/
inductive MgrAction where
  | resetRegistry
  | resetFunction (filename : String) (lineno : Nat)
  | instrument (filename : String) (lineno : Nat) (bid : Nat)
  | registerBps (bid : Nat) (bps : List Breakpoint)
deriving DecidableEq, Repr

/-- `LiveDebuggerManager.get_bid_by_filepos`: look the filepos up in the
map, assigning the next counter value on first sight. -/
def getBidByFilepos (st : MgrState) (fp : String × Nat) : Nat × MgrState :=
  match st.filepos_to_bids.find? (fun kv => decide (kv.1 = fp)) with
  | some kv => (kv.2, st)
  | none =>
    (st.bid_counter,
     { st with
       filepos_to_bids := st.filepos_to_bids ++ [(fp, st.bid_counter)]
       bid_counter := st.bid_counter + 1 })

/-- The `defaultdict(list)` grouping of the latest breakpoints by
`(filename, lineno)`, in first-seen key order with values appended in
input order. -/
def groupByFilepos (bps : List Breakpoint) : List ((String × Nat) × List Breakpoint) :=
  bps.foldl
    (fun acc bp =>
      let key := (bp.filename, bp.lineno)
      if acc.any (fun kv => decide (kv.1 = key)) then
        acc.map (fun kv => if kv.1 = key then (kv.1, kv.2 ++ [bp]) else kv)
      else acc ++ [(key, [bp])])
    []

/-- `removed = old_set - new_set` over `(uuid, filename, lineno)`
triples, as `_update_breakpoints` computes it. -/
def removedTriples (st : MgrState) (latest : List Breakpoint) : List (String × String × Nat) :=
  ((st.breakpoints.map triple).dedup).filter
    (fun t => decide (t ∉ latest.map triple))

/-- `added = new_set - old_set` over `(uuid, filename, lineno)` triples. -/
def addedTriples (st : MgrState) (latest : List Breakpoint) : List (String × String × Nat) :=
  (((latest.map triple).dedup)).filter
    (fun t => decide (t ∉ st.breakpoints.map triple))

/-- `LiveDebuggerManager._update_breakpoints(latest_breakpoints)`:
compute the two set differences over `(uuid, filename, lineno)`; if both
are empty return immediately with no action; otherwise clear the
registry, reset the removed and the to-instrument filepositions,
instrument and register each `(filename, lineno)` group under its bid,
and store the latest list. -/
def updateBreakpoints (st : MgrState) (latest : List Breakpoint) :
    MgrState × List MgrAction :=
  if removedTriples st latest = [] ∧ addedTriples st latest = [] then (st, [])
  else
    let groups := groupByFilepos latest
    let removeActs := (removedTriples st latest).map
      (fun t => MgrAction.resetFunction t.2.1 t.2.2)
    let groupResetActs := groups.map (fun kv => MgrAction.resetFunction kv.1.1 kv.1.2)
    let instRes := groups.foldl
      (fun (acc : MgrState × List MgrAction) kv =>
        let r := getBidByFilepos acc.1 kv.1
        (r.2, acc.2 ++ [MgrAction.instrument kv.1.1 kv.1.2 r.1, MgrAction.registerBps r.1 kv.2]))
      (st, ([] : List MgrAction))
    ({ instRes.1 with breakpoints := latest },
      MgrAction.resetRegistry :: (removeActs ++ groupResetActs ++ instRes.2))

/-! ## Helper lemmas -/

theorem mem_le_foldr_max {x : Nat} {st : List Nat} (hx : x ∈ st) :
    x ≤ st.foldr max 0 := by
  induction st with
  | nil => cases hx
  | cons a l ih =>
    rcases List.mem_cons.mp hx with h | h
    · subst h; exact le_max_left _ _
    · exact le_trans (ih h) (le_max_right _ _)

theorem freshF_not_mem (st : List Nat) : freshF st ∉ st := by
  intro h
  have := mem_le_foldr_max h
  simp only [freshF] at this
  omega

theorem freshF_ne_head (st : List Nat) : some (freshF st) ≠ st.head? := by
  cases st with
  | nil => simp
  | cons a l =>
    simp only [List.head?_cons, ne_eq, Option.some.injEq]
    intro h
    exact freshF_not_mem (a :: l) (by rw [h]; exact List.mem_cons_self a l)

theorem decoratorCall_res {V : Type} (env : DecoEnv V) (st : List Nat)
    (la : List V) (lk : List (String × V)) :
    (decoratorCall env st la lk).res = originalCall env la lk := by
  cases h : env.binds la lk <;>
    simp [decoratorCall, runInstrumentedFn, originalCall, h]

theorem exitPhase_fst_irrel {V : Type} (env env2 : DecoEnv V) (previous : Option Nat)
    (st : List Nat) (r r2 : Res V) :
    (exitPhase env previous st r).1 = (exitPhase env2 previous st r2).1 := by
  cases st with
  | nil => rfl
  | cons f rest => by_cases h : some f = previous <;> simp [exitPhase, h]

theorem exitEvents_append {V : Type} (a b : List (Event V)) :
    exitEvents (a ++ b) = exitEvents a ++ exitEvents b :=
  List.filter_append a b

theorem exitEvents_entry {V : Type} (fid : Nat) (ps : List (Nat × (Nat → POutcome))) :
    exitEvents (V := V) (runEntryLoop fid ps) = [] := by
  induction ps with
  | nil => rfl
  | cons p rest ih =>
    simp only [runEntryLoop]
    cases p.2 fid
    · rfl
    · simpa [exitEvents, isExitEv] using ih

theorem runExitLoop_all_ok {V : Type} (fid : Nat) (rv : Option V) (ex : Option Nat)
    (ps : List (Nat × (Nat → Option V → Option Nat → POutcome)))
    (h : ∀ pr ∈ ps, pr.2 fid rv ex = POutcome.ok) :
    runExitLoop fid rv ex ps = ps.map (fun pr => Event.exitRun pr.1 fid rv ex) := by
  induction ps with
  | nil => rfl
  | cons p rest ih =>
    have hp := h p (List.mem_cons_self p rest)
    simp only [runExitLoop, hp, List.map_cons]
    exact congrArg _ (ih (fun pr hpr => h pr (List.mem_cons_of_mem p hpr)))

theorem exitEvents_runExitLoop {V : Type} (fid : Nat) (rv : Option V) (ex : Option Nat)
    (ps : List (Nat × (Nat → Option V → Option Nat → POutcome))) :
    exitEvents (runExitLoop fid rv ex ps) = runExitLoop fid rv ex ps := by
  induction ps with
  | nil => rfl
  | cons p rest ih =>
    simp only [runExitLoop]
    cases p.2 fid rv ex
    · rfl
    · simpa [exitEvents, isExitEv] using ih

theorem injectLoop_already (vi : PyVer) (isGen : Bool) (gen : List BInstr) :
    ∀ (l : List BInstr) (prev : Option BInstr),
      injectLoop vi isGen gen l true prev = Except.ok l := by
  intro l
  induction l with
  | nil => intro prev; rfl
  | cons i rest ih =>
    intro prev
    simp [injectLoop, insertNow, ih]

theorem injectLoop_marker (vi : PyVer) (isGen : Bool) (gen : List BInstr)
    (g qh : BInstr) (qt : List BInstr)
    (hmark : insertNow vi isGen false (some g) = Except.ok true) :
    ∀ (p : List BInstr) (prev : Option BInstr),
      insertNow vi isGen false prev = Except.ok false →
      (∀ x ∈ p, insertNow vi isGen false (some x) = Except.ok false) →
      injectLoop vi isGen gen (p ++ g :: qh :: qt) false prev =
        Except.ok (p ++ g :: (gen ++ qh :: qt)) := by
  intro p
  induction p with
  | nil =>
    intro prev hprev _
    simp [injectLoop, hprev, hmark, injectLoop_already]
  | cons x p ih =>
    intro prev hprev hskip
    have hx : insertNow vi isGen false (some x) = Except.ok false :=
      hskip x (List.mem_cons_self x p)
    have ihx := ih (some x) hx (fun y hy => hskip y (List.mem_cons_of_mem x hy))
    simp [injectLoop, hprev, ihx]

/-! ## Claim theorems -/

/-- C1: semantic transparency of redirection.  For every supported
interpreter variant, executing the trampoline's instruction sequence on
arbitrary positional arguments `la` and keyword arguments `lk` returns
exactly `call la lk` — the decorator invoked with both argument
collections unchanged — and the decorator's `__call__` returns (or
re-raises) exactly what calling the function before installation would:
`originalCall`, the entry-injected body's own result. -/
theorem C1_redirection_transparency {V R : Type}
    (vi : PyVer) (hv : SupportedVer vi = true)
    (call : List V → List (String × V) → R) (la : List V) (lk : List (String × V))
    (env : DecoEnv V) (st : List Nat) (la2 : List V) (lk2 : List (String × V)) :
    runRedirector vi call la lk = Except.ok (MVal.ret (call la lk)) ∧
    (decoratorCall env st la2 lk2).res = originalCall env la2 lk2 := by
  refine ⟨?_, decoratorCall_res env st la2 lk2⟩
  rcases supported_cases hv with h | h | h | h | h <;> subst h <;> rfl

/-- C2: exit probes run on every exit path.  For a call whose argument
binding succeeds (so the instrumented body actually runs — returning
normally or raising) and whose exit-probe steps do not themselves fail,
the call's result is the body's result unchanged (a raised exception
still propagates), and the exit-probe executions recorded for the call
are exactly one per exit probe, each receiving the frame pushed by this
call together with the retval (if any) and the exception (if any). -/
theorem C2_exit_probes_every_exit_path {V : Type} (env : DecoEnv V) (st : List Nat)
    (la : List V) (lk : List (String × V))
    (hbind : env.binds la lk = none)
    (hok : ∀ pr ∈ env.exitProbes, ∀ f rv ex, pr.2 f rv ex = POutcome.ok) :
    (decoratorCall env st la lk).res = originalCall env la lk ∧
    exitEvents (decoratorCall env st la lk).log =
      env.exitProbes.map (fun pr =>
        Event.exitRun pr.1 (freshF st) (splitRes (env.body la lk)).1
          (splitRes (env.body la lk)).2) := by
  refine ⟨decoratorCall_res env st la lk, ?_⟩
  have hne : ¬ (some (freshF st) = st.head?) := freshF_ne_head st
  have h3 := runExitLoop_all_ok (freshF st) (splitRes (env.body la lk)).1
    (splitRes (env.body la lk)).2 env.exitProbes (fun pr hpr => hok pr hpr _ _ _)
  have hstep : (decoratorCall env st la lk).log =
      runEntryLoop (freshF st) env.entryProbes ++
        exitTrace env (freshF st) (env.body la lk) := by
    simp [decoratorCall, runInstrumentedFn, hbind, exitPhase, hne]
  rw [hstep, exitEvents_append, exitEvents_entry, List.nil_append, exitTrace,
    exitEvents_runExitLoop, h3]

/-- C3: probe-failure isolation.  Two environments sharing the same
function (same body semantics and same argument binding) but arbitrary,
possibly failing, entry/exit probe behaviours produce the same call
result and the same final frame stack; in particular the result always
equals the pre-instrumentation call's result, so a probe failure never
changes the instrumented function's return value or exception. -/
theorem C3_probe_failure_isolation {V : Type} (env env2 : DecoEnv V) (st : List Nat)
    (la : List V) (lk : List (String × V))
    (hb : env.body = env2.body) (hbd : env.binds = env2.binds) :
    (decoratorCall env st la lk).res = (decoratorCall env2 st la lk).res ∧
    (decoratorCall env st la lk).frames = (decoratorCall env2 st la lk).frames ∧
    (decoratorCall env st la lk).res = originalCall env la lk := by
  refine ⟨?_, ?_, decoratorCall_res env st la lk⟩
  · rw [decoratorCall_res, decoratorCall_res]
    simp [originalCall, hb, hbd]
  · have hbinds2 : env2.binds la lk = env.binds la lk := by rw [hbd]
    cases h : env.binds la lk with
    | some e =>
      simp only [decoratorCall, runInstrumentedFn, h, hbinds2.trans h]
      exact exitPhase_fst_irrel env env2 _ _ _ _
    | none =>
      simp only [decoratorCall, runInstrumentedFn, h, hbinds2.trans h]
      exact exitPhase_fst_irrel env env2 _ _ _ _

/-- C6: frame-stack desynchronization defense, the four exit-time cases
of `__call__`:
1. if the popped record is the record that was on top before the call
   began, it is pushed back and no exit probes fire;
2. otherwise the popped record drives the exit probes;
3. when the entry capture ran (binding succeeded), the popped record is
   precisely the fresh frame pushed by this call — never a stale one —
   and the exit probes run against it;
4. when the entry capture never ran (the call failed before the body),
   the stale top is popped, detected, and pushed back: the stack is
   restored, no probes fire, and the exception propagates unchanged. -/
theorem C6_frame_stack_desync_defense (V : Type) :
    (∀ (env : DecoEnv V) (f : Nat) (rest : List Nat) (r : Res V),
        exitPhase env (some f) (f :: rest) r = (f :: rest, [])) ∧
    (∀ (env : DecoEnv V) (previous : Option Nat) (f : Nat) (rest : List Nat) (r : Res V),
        some f ≠ previous →
        exitPhase env previous (f :: rest) r = (rest, exitTrace env f r)) ∧
    (∀ (env : DecoEnv V) (st : List Nat) (la : List V) (lk : List (String × V)),
        env.binds la lk = none →
        freshF st ∉ st ∧
        (decoratorCall env st la lk).frames = st ∧
        (decoratorCall env st la lk).log =
          runEntryLoop (freshF st) env.entryProbes ++
            exitTrace env (freshF st) (env.body la lk)) ∧
    (∀ (env : DecoEnv V) (f : Nat) (rest : List Nat) (la : List V)
        (lk : List (String × V)) (e : Nat),
        env.binds la lk = some e →
        (decoratorCall env (f :: rest) la lk).res = Res.exn e ∧
        (decoratorCall env (f :: rest) la lk).frames = f :: rest ∧
        (decoratorCall env (f :: rest) la lk).log = []) := by
  refine ⟨?_, ?_, ?_, ?_⟩
  · intro env f rest r
    simp [exitPhase]
  · intro env previous f rest r h
    simp [exitPhase, h]
  · intro env st la lk hbind
    have hne : ¬ (some (freshF st) = st.head?) := freshF_ne_head st
    refine ⟨freshF_not_mem st, ?_, ?_⟩ <;>
      simp [decoratorCall, runInstrumentedFn, hbind, exitPhase, hne, exitTrace]
  · intro env f rest la lk e hbind
    refine ⟨?_, ?_, ?_⟩ <;>
      simp [decoratorCall, runInstrumentedFn, hbind, exitPhase]

/-! ## Concrete environments used by the witnesses -/

/-- A concrete installed function: sums its positional arguments, with
one always-succeeding entry probe and one always-succeeding exit probe. -/
def envW : DecoEnv Nat :=
  { body := fun la _ => Res.ok (la.foldr (fun a b => a + b) 0)
    binds := fun _ _ => none
    entryProbes := [(1, fun _ => POutcome.ok)]
    exitProbes := [(2, fun _ _ _ => POutcome.ok)] }

/-- The same function as `envW` but with probes that always raise. -/
def envWfail : DecoEnv Nat :=
  { body := fun la _ => Res.ok (la.foldr (fun a b => a + b) 0)
    binds := fun _ _ => none
    entryProbes := [(1, fun _ => POutcome.fail)]
    exitProbes := [(2, fun _ _ _ => POutcome.fail)] }

/-- A function whose binding rejects more than two positional arguments
(a `TypeError` before the body starts), and whose body can raise. -/
def envWbind : DecoEnv Nat :=
  { body := fun la _ => if la.length = 2 then Res.exn 7 else Res.ok 1
    binds := fun la _ => if 2 < la.length then some 99 else none
    entryProbes := [(1, fun _ => POutcome.ok)]
    exitProbes := [(2, fun _ _ _ => POutcome.ok)] }

/-- Witness for C1: version 3.12, concrete arguments through the
trampoline and the decorator. -/
theorem C1_redirection_transparency_witness :
    SupportedVer (3, 12) = true ∧
    (runRedirector (3, 12)
        (fun (la : List Nat) (lk : List (String × Nat)) => la.length + lk.length)
        [4, 5] [("k", 6)] =
      Except.ok (MVal.ret 3) ∧
     (decoratorCall envW [7] [4, 5] [("k", 6)]).res = originalCall envW [4, 5] [("k", 6)]) :=
  ⟨by decide,
   C1_redirection_transparency (3, 12) (by decide)
     (fun la lk => la.length + lk.length) [4, 5] [("k", 6)] envW [7] [4, 5] [("k", 6)]⟩

/-- Witness for C2: a body that raises (exception 7 for a two-argument
call in `envWbind`), showing the exit probe fired once with the
exception visible and the exception re-raised. -/
theorem C2_exit_probes_every_exit_path_witness :
    envWbind.binds [4, 5] [] = none ∧
    ((decoratorCall envWbind [9] [4, 5] []).res = originalCall envWbind [4, 5] [] ∧
     exitEvents (decoratorCall envWbind [9] [4, 5] []).log =
       envWbind.exitProbes.map (fun pr =>
         Event.exitRun pr.1 (freshF [9]) (splitRes (envWbind.body [4, 5] [])).1
           (splitRes (envWbind.body [4, 5] [])).2)) := by
  refine ⟨rfl, C2_exit_probes_every_exit_path envWbind [9] [4, 5] [] rfl ?_⟩
  intro pr hpr f rv ex
  rw [List.mem_singleton.mp hpr]

/-- Witness for C3: `envW` versus `envWfail` (same function, failing
probes) give the same result and frame stack. -/
theorem C3_probe_failure_isolation_witness :
    (decoratorCall envW [7] [4] []).res = (decoratorCall envWfail [7] [4] []).res ∧
    (decoratorCall envW [7] [4] []).frames = (decoratorCall envWfail [7] [4] []).frames ∧
    (decoratorCall envW [7] [4] []).res = originalCall envW [4] [] :=
  C3_probe_failure_isolation envW envWfail [7] [4] [] rfl rfl

/-- Witness for C6: the four exit-time cases at concrete inputs. -/
theorem C6_frame_stack_desync_defense_witness :
    (exitPhase envW (some 5) [5, 3] (Res.ok 1) = ([5, 3], [])) ∧
    (exitPhase envW (some 9) [5, 3] (Res.ok 1) = ([3], exitTrace envW 5 (Res.ok 1))) ∧
    (freshF [7] ∉ [7] ∧
     (decoratorCall envWbind [7] [4] []).frames = [7] ∧
     (decoratorCall envWbind [7] [4] []).log =
       runEntryLoop (freshF [7]) envWbind.entryProbes ++
         exitTrace envWbind (freshF [7]) (envWbind.body [4] [])) ∧
    ((decoratorCall envWbind [7] [4, 5, 6] []).res = Res.exn 99 ∧
     (decoratorCall envWbind [7] [4, 5, 6] []).frames = [7] ∧
     (decoratorCall envWbind [7] [4, 5, 6] []).log = []) :=
  ⟨(C6_frame_stack_desync_defense Nat).1 envW 5 [3] (Res.ok 1),
   (C6_frame_stack_desync_defense Nat).2.1 envW (some 9) 5 [3] (Res.ok 1) (by decide),
   (C6_frame_stack_desync_defense Nat).2.2.1 envWbind [7] [4] [] rfl,
   (C6_frame_stack_desync_defense Nat).2.2.2 envWbind 7 [] [4, 5, 6] [] 99 rfl⟩

/-- On 3.11/3.12/3.13 `insert_now` (latch unset) declines at the start,
fires exactly after a `RESUME` instruction, and declines after anything
else, regardless of generator-ness. -/
theorem insertNow_modern (vi : PyVer)
    (hvi : vi = (3, 11) ∨ vi = (3, 12) ∨ vi = (3, 13)) (isGen : Bool) :
    insertNow vi isGen false none = Except.ok false ∧
    (∀ g, instrName? g = some "RESUME" → insertNow vi isGen false (some g) = Except.ok true) ∧
    (∀ x, instrName? x ≠ some "RESUME" → insertNow vi isGen false (some x) = Except.ok false) := by
  rcases hvi with h | h | h <;> subst h <;>
    refine ⟨by simp [insertNow, is_py310, is_py39, is_py311, is_py312, is_py313, isVersion],
      ?_, ?_⟩ <;>
    · intro y hy
      simp [insertNow, is_py310, is_py39, is_py311, is_py312, is_py313, isVersion, hy]

/-- C4: cleanup restores the original body exactly.  Whenever
installation succeeds, the snapshot taken at install time is the
function's pre-instrumentation code object, and after `cleanup` the
function's code is again exactly that snapshot. -/
theorem C4_reset_restores_original (vi : PyVer) (fnCode : Bytecode)
    (h : isOkE (installDecorator vi fnCode) = true) :
    (installDecorator vi fnCode).map (fun inst => inst.original_code) = Except.ok fnCode ∧
    (installDecorator vi fnCode).map (fun inst => (cleanup inst).wrapped_fn_code) =
      Except.ok fnCode := by
  unfold installDecorator at h ⊢
  cases h1 : codegenCallSelfMethod vi "_capture_caller_frame_and_run_entry_probes" with
  | error e => rw [h1] at h; simp [isOkE] at h
  | ok g =>
    rw [h1] at h
    simp only [] at h ⊢
    cases h2 : inject vi g fnCode with
    | error e => rw [h2] at h; simp [isOkE] at h
    | ok instd =>
      rw [h2] at h
      simp only [] at h ⊢
      cases h3 : generateRedirectorCode vi fnCode with
      | error e => rw [h3] at h; simp [isOkE] at h
      | ok rc => exact ⟨rfl, rfl⟩

/-- C5: entry injection is exactly-once and placed after the variant
prologue.  On 3.9 (and 3.10 for non-generators) the generated sequence
is inserted exactly once at the very start; on 3.10 for generator units
exactly once immediately after the first `GEN_START`; on 3.11–3.13
exactly once immediately after the first `RESUME`.  The equalities pin
the entire output sequence, so no second insertion can occur on the same
pass. -/
theorem C5_entry_injection_placement :
    (∀ (gen : List BInstr) (code : Bytecode) (i : BInstr) (rest : List BInstr),
        code.instrs = i :: rest →
        (inject (3, 9) gen code).map (fun b => b.instrs) =
          Except.ok (gen ++ code.instrs)) ∧
    (∀ (gen : List BInstr) (code : Bytecode) (i : BInstr) (rest : List BInstr),
        isGeneratorFlags code.flags = false → code.instrs = i :: rest →
        (inject (3, 10) gen code).map (fun b => b.instrs) =
          Except.ok (gen ++ code.instrs)) ∧
    (∀ (gen : List BInstr) (code : Bytecode) (p : List BInstr) (g qh : BInstr)
        (qt : List BInstr),
        isGeneratorFlags code.flags = true →
        code.instrs = p ++ g :: qh :: qt →
        instrName? g = some "GEN_START" →
        (∀ x ∈ p, instrName? x ≠ some "GEN_START") →
        (inject (3, 10) gen code).map (fun b => b.instrs) =
          Except.ok (p ++ g :: (gen ++ qh :: qt))) ∧
    (∀ vi : PyVer, (vi = (3, 11) ∨ vi = (3, 12) ∨ vi = (3, 13)) →
        ∀ (gen : List BInstr) (code : Bytecode) (p : List BInstr) (g qh : BInstr)
          (qt : List BInstr),
        code.instrs = p ++ g :: qh :: qt →
        instrName? g = some "RESUME" →
        (∀ x ∈ p, instrName? x ≠ some "RESUME") →
        (inject vi gen code).map (fun b => b.instrs) =
          Except.ok (p ++ g :: (gen ++ qh :: qt))) := by
  refine ⟨?_, ?_, ?_, ?_⟩
  · intro gen code i rest hc
    have hin : insertNow (3, 9) (isGeneratorFlags code.flags) false none = Except.ok true := by
      simp [insertNow, is_py39, is_py310, isVersion]
    simp [inject, hc, injectLoop, hin, injectLoop_already, copyMetadata, Bytecode.blank, Except.map]
  · intro gen code i rest hflag hc
    have hin : insertNow (3, 10) false false none = Except.ok true := by
      simp [insertNow, is_py310, isVersion]
    simp [inject, hc, hflag, injectLoop, hin, injectLoop_already, copyMetadata, Bytecode.blank, Except.map]
  · intro gen code p g qh qt hflag hc hg hskip
    have hmark : insertNow (3, 10) true false (some g) = Except.ok true := by
      simp [insertNow, is_py310, isVersion, hg]
    have hnone : insertNow (3, 10) true false none = Except.ok false := by
      simp [insertNow, is_py310, isVersion]
    have hsk : ∀ x ∈ p, insertNow (3, 10) true false (some x) = Except.ok false := by
      intro x hx
      simp [insertNow, is_py310, isVersion, hskip x hx]
    have hloop := injectLoop_marker (3, 10) true gen g qh qt hmark p none hnone hsk
    simp [inject, hc, hflag, hloop, copyMetadata, Bytecode.blank, Except.map]
  · intro vi hvi gen code p g qh qt hc hg hskip
    obtain ⟨hnone, hmarkAll, hskipAll⟩ := insertNow_modern vi hvi (isGeneratorFlags code.flags)
    have hloop := injectLoop_marker vi (isGeneratorFlags code.flags) gen g qh qt
      (hmarkAll g hg) p none hnone (fun x hx => hskipAll x (hskip x hx))
    simp [inject, hc, hloop, copyMetadata, Bytecode.blank, Except.map]

/-- C8: an unknown interpreter variant fails fast.  When the running
version is none of 3.9–3.13, the zero-argument self-method generator,
the redirector generator, and the entry-injection placement decision
(and hence `inject` on any non-empty unit) all raise instead of
emitting code. -/
theorem C8_unknown_variant_fails_fast (vi : PyVer) (hv : SupportedVer vi = false) :
    (∀ m, isOkE (codegenCallSelfMethod vi m) = false) ∧
    isOkE (redirectorInstrs vi) = false ∧
    (∀ (isGen : Bool) (prev : Option BInstr),
        isOkE (insertNow vi isGen false prev) = false) ∧
    (∀ (gen : List BInstr) (code : Bytecode), code.instrs ≠ [] →
        isOkE (inject vi gen code) = false) := by
  simp only [SupportedVer, Bool.or_eq_false_iff] at hv
  obtain ⟨⟨⟨⟨h9, h10⟩, h11⟩, h12⟩, h13⟩ := hv
  refine ⟨?_, ?_, ?_, ?_⟩
  · intro m
    simp [codegenCallSelfMethod, h9, h10, h11, h12, h13, isOkE]
  · simp [redirectorInstrs, h9, h10, h11, h12, h13, isOkE]
  · intro isGen prev
    cases prev <;> simp [insertNow, h9, h10, h11, h12, h13, isOkE]
  · intro gen code hne
    cases hc : code.instrs with
    | nil => exact absurd hc hne
    | cons i rest =>
      simp [inject, hc, injectLoop, insertNow, h9, h10, h11, h12, h13, isOkE]

/-- C9: injection preserves all non-instruction metadata.  Whenever
`inject` succeeds, every metadata field of the output unit (argnames,
cell/free variables, the three argument counts, filename, docstring,
flags, first line, name) equals the input unit's. -/
theorem C9_injection_preserves_metadata (vi : PyVer) (gen : List BInstr) (code : Bytecode)
    (h : isOkE (inject vi gen code) = true) :
    (inject vi gen code).map metaOf = Except.ok (metaOf code) := by
  unfold inject at h ⊢
  cases hl : injectLoop vi (isGeneratorFlags code.flags) gen code.instrs false none with
  | error e => rw [hl] at h; simp [isOkE] at h
  | ok l => rfl

/-! ## Witness inputs for the injector/installation claims -/

def genW : List BInstr := [BInstr.instr "NOP" IArg.noArg]

def bc39 : Bytecode :=
  Bytecode.blank [BInstr.instr "LOAD_CONST" IArg.constDeco,
    BInstr.instr "RETURN_VALUE" IArg.noArg]

def bcGen : Bytecode :=
  { Bytecode.blank [BInstr.instr "GEN_START" (IArg.num 0),
      BInstr.instr "LOAD_CONST" IArg.constDeco,
      BInstr.instr "RETURN_VALUE" IArg.noArg] with
    flags := 32 }

def bc311 : Bytecode :=
  Bytecode.blank [BInstr.instr "RESUME" (IArg.num 0),
    BInstr.instr "RETURN_VALUE" IArg.noArg]

/-- Witness for C4 at version 3.12 on a concrete code object. -/
theorem C4_reset_restores_original_witness :
    isOkE (installDecorator (3, 12) bc311) = true ∧
    ((installDecorator (3, 12) bc311).map (fun inst => inst.original_code) =
        Except.ok bc311 ∧
     (installDecorator (3, 12) bc311).map (fun inst => (cleanup inst).wrapped_fn_code) =
        Except.ok bc311) :=
  ⟨by decide, C4_reset_restores_original (3, 12) bc311 (by decide)⟩

/-- Witness for C5: each of the four placements at a concrete unit. -/
theorem C5_entry_injection_placement_witness :
    ((inject (3, 9) genW bc39).map (fun b => b.instrs) =
        Except.ok (genW ++ bc39.instrs)) ∧
    (isGeneratorFlags bc39.flags = false ∧
     (inject (3, 10) genW bc39).map (fun b => b.instrs) =
        Except.ok (genW ++ bc39.instrs)) ∧
    (isGeneratorFlags bcGen.flags = true ∧
     (inject (3, 10) genW bcGen).map (fun b => b.instrs) =
        Except.ok ([] ++ BInstr.instr "GEN_START" (IArg.num 0) ::
          (genW ++ [BInstr.instr "LOAD_CONST" IArg.constDeco,
            BInstr.instr "RETURN_VALUE" IArg.noArg]))) ∧
    ((inject (3, 11) genW bc311).map (fun b => b.instrs) =
        Except.ok ([] ++ BInstr.instr "RESUME" (IArg.num 0) ::
          (genW ++ [BInstr.instr "RETURN_VALUE" IArg.noArg]))) :=
  ⟨C5_entry_injection_placement.1 genW bc39 _ _ rfl,
   ⟨rfl, C5_entry_injection_placement.2.1 genW bc39 _ _ rfl rfl⟩,
   ⟨rfl, C5_entry_injection_placement.2.2.1 genW bcGen []
      (BInstr.instr "GEN_START" (IArg.num 0)) (BInstr.instr "LOAD_CONST" IArg.constDeco)
      [BInstr.instr "RETURN_VALUE" IArg.noArg] rfl rfl rfl (by simp)⟩,
   C5_entry_injection_placement.2.2.2 (3, 11) (Or.inl rfl) genW bc311 []
      (BInstr.instr "RESUME" (IArg.num 0)) (BInstr.instr "RETURN_VALUE" IArg.noArg)
      [] rfl rfl (by simp)⟩

/-- Witness for C8 at version 3.8. -/
theorem C8_unknown_variant_fails_fast_witness :
    SupportedVer (3, 8) = false ∧
    (isOkE (codegenCallSelfMethod (3, 8) "_capture_caller_frame_and_run_entry_probes") = false ∧
     isOkE (redirectorInstrs (3, 8)) = false ∧
     isOkE (insertNow (3, 8) false false none) = false ∧
     isOkE (inject (3, 8) genW bc39) = false) := by
  have h := C8_unknown_variant_fails_fast (3, 8) (by decide)
  exact ⟨by decide, h.1 _, h.2.1, h.2.2.1 false none, h.2.2.2 genW bc39 (by decide)⟩

/-- Witness for C9 at version 3.9 on a concrete unit. -/
theorem C9_injection_preserves_metadata_witness :
    isOkE (inject (3, 9) genW bc39) = true ∧
    (inject (3, 9) genW bc39).map metaOf = Except.ok (metaOf bc39) :=
  ⟨by decide, C9_injection_preserves_metadata (3, 9) genW bc39 (by decide)⟩

/-! ## Reconciliation and breakpoint claims -/

/-- A breakpoint with a condition. -/
def bpCondA : Breakpoint := ⟨"u1", "app.py", 5, some "x > 1"⟩

/-- The same uuid/file/line as `bpCondA` but without the condition. -/
def bpCondNone : Breakpoint := ⟨"u1", "app.py", 5, none⟩

/-- A different uuid at the same file/line. -/
def bpOther : Breakpoint := ⟨"u2", "app.py", 5, some "x > 1"⟩

/-- A manager state currently holding `bpCondA`. -/
def mgrA : MgrState := ⟨[bpCondA], [], 1⟩

/-- C7 counterexample: the reconciliation diff is not a full-value set
difference.  With a previous set holding a breakpoint whose condition is
`some "x > 1"` and a new set holding the same uuid/file/line with no
condition, the full-value (uuid+file+line+condition) difference is
non-empty, yet `_update_breakpoints` performs no action at all and does
not even store the new list — because it diffs only on
`(uuid, filename, lineno)`.  By contrast a uuid change (same
file/line/condition) does produce actions, showing actions track the
triple-based diff. -/
theorem C7_full_value_diff_counterexample :
    (updateBreakpoints mgrA [bpCondNone]).2 = [] ∧
    (updateBreakpoints mgrA [bpCondNone]).1 = mgrA ∧
    ¬ ((mgrA.breakpoints.map quad).filter (fun q => decide (q ∉ [bpCondNone].map quad)) = []) ∧
    (updateBreakpoints mgrA [bpOther]).2 ≠ [] := by
  decide

/-- C7 (amended): reconciliation computes `removed = old − new` and
`added = new − old` by set difference over `(uuid, file, line)` only —
the condition field is not compared — and if both differences are empty
it performs no instrumentation, reset, or registry action at all (and
leaves the stored state untouched); whenever either difference is
non-empty, the first action taken is clearing the breakpoint registry. -/
theorem C7_reconciliation_triple_diff (st : MgrState) (latest : List Breakpoint) :
    (removedTriples st latest = [] ∧ addedTriples st latest = [] →
       updateBreakpoints st latest = (st, [])) ∧
    (¬ (removedTriples st latest = [] ∧ addedTriples st latest = []) →
       ((updateBreakpoints st latest).2).head? = some MgrAction.resetRegistry) := by
  constructor
  · intro h
    simp [updateBreakpoints, h]
  · intro h
    simp [updateBreakpoints, h]

/-- Witness for the amended C7: a no-change snapshot produces no action;
a uuid change leads with the registry reset. -/
theorem C7_reconciliation_triple_diff_witness :
    updateBreakpoints mgrA [bpCondA] = (mgrA, []) ∧
    ((updateBreakpoints mgrA [bpOther]).2).head? = some MgrAction.resetRegistry :=
  ⟨(C7_reconciliation_triple_diff mgrA [bpCondA]).1 (by decide),
   (C7_reconciliation_triple_diff mgrA [bpOther]).2 (by decide)⟩

/-- C10: `condition_matches` ignores its locals argument entirely;
it returns `False` for every breakpoint whose conditional expression is
set and non-empty (so a conditional breakpoint never matches), `True`
for every breakpoint without a condition, and in general returns `True`
exactly when the condition is absent or the empty string (Python
truthiness of `Optional[str]`). -/
theorem C10_condition_matches_ignores_locals (bp : Breakpoint)
    (locs locs2 : List (String × String)) :
    condition_matches bp locs = condition_matches bp locs2 ∧
    (∀ s, bp.conditional_expr = some s → s ≠ "" → condition_matches bp locs = false) ∧
    (bp.conditional_expr = none → condition_matches bp locs = true) ∧
    (condition_matches bp locs = true ↔
      (bp.conditional_expr = none ∨ bp.conditional_expr = some "")) := by
  refine ⟨rfl, ?_, ?_, ?_⟩
  · intro s hs hne
    simp [condition_matches, condTruthy, hs, hne]
  · intro h
    simp [condition_matches, condTruthy, h]
  · cases h : bp.conditional_expr with
    | none => simp [condition_matches, condTruthy, h]
    | some s =>
      by_cases hs : s = "" <;> simp [condition_matches, condTruthy, h, hs]

/-- Witness for C10 on concrete breakpoints and locals. -/
theorem C10_condition_matches_ignores_locals_witness :
    condition_matches bpCondA [] = condition_matches bpCondA [("x", "1")] ∧
    condition_matches bpCondA [] = false ∧
    condition_matches bpCondNone [("y", "2")] = true :=
  ⟨(C10_condition_matches_ignores_locals bpCondA [] [("x", "1")]).1,
   (C10_condition_matches_ignores_locals bpCondA [] [("x", "1")]).2.1 "x > 1" rfl (by decide),
   (C10_condition_matches_ignores_locals bpCondNone [("y", "2")] []).2.2.1 rfl⟩

end LibDebugger
